import Mathlib

/-!
Verification development for `check_gemini_keys.py`, a batch validator of
Gemini API keys.  The source program probes each credential with one network
call, classifies failures through a chain of exception handlers, partitions
the outcomes into valid and invalid sets, and formats the valid set as either
newline-joined text or a JSON array.

The shallow embedding below translates the source functions directly:
`check_key` mirrors the function of the same name (lines 24-65), with the
outcome of the `try` body abstracted as `Option PyExc` (`none` = the probe
call returned without raising; `some e` = the body raised exception `e`).
The `except` clause chain is modelled by `handleException`, which tests the
handler classes in source order against the Python class hierarchy encoded
in `isInstance` (the three specific API exceptions are subclasses of
`GoogleAPICallError`, and everything is a subclass of `Exception`).
`mainModel` mirrors the data-relevant behaviour of `main` (lines 112-173):
input filtering, task fan-out, result partitioning, message construction and
output formatting.  Thread-pool completion order is modelled as a fixed
enumeration; every property proved below is insensitive to that order.
-/

/-- ASCII whitespace characters removed by the Python `str.strip()` method. -/
def pyIsSpace (c : Char) : Bool :=
  c = ' ' || c = '\t' || c = '\n' || c = '\r' || c = '\x0b' || c = '\x0c'

/-- Model of the Python `str.strip()` method: drop leading and trailing
whitespace. -/
def pyStrip (s : String) : String :=
  String.mk (((s.data.dropWhile pyIsSpace).reverse.dropWhile pyIsSpace).reverse)

/-- An exception raised inside the `try` body of `check_key`.  The three
specific constructors are the exception classes named by the first three
handlers; `googleAPICallError` stands for any other instance of
`exceptions.GoogleAPICallError` and carries the rendering of its `code`
attribute together with its type name; `otherExc` stands for any other
Python exception (network failure, timeout, DNS failure, ...) and carries
its type name. -/
inductive PyExc where
  | permissionDenied
  | invalidArgument
  | resourceExhausted
  | googleAPICallError (codeStr : String) (tyName : String)
  | otherExc (tyName : String)
deriving DecidableEq, Repr

/-- The exception classes named by the `except` clauses of `check_key`, in
source order. -/
inductive ExcClass where
  | PermissionDeniedC
  | InvalidArgumentC
  | ResourceExhaustedC
  | GoogleAPICallErrorC
  | ExceptionC
deriving DecidableEq, Repr

/-- The Python `isinstance` relation restricted to the exceptions and handler
classes that occur in `check_key`: the three specific API exceptions are
subclasses of `GoogleAPICallError`, and every exception is an instance of
`Exception`. -/
def isInstance : PyExc → ExcClass → Bool
  | _, .ExceptionC => true
  | .permissionDenied, .PermissionDeniedC => true
  | .permissionDenied, .GoogleAPICallErrorC => true
  | .invalidArgument, .InvalidArgumentC => true
  | .invalidArgument, .GoogleAPICallErrorC => true
  | .resourceExhausted, .ResourceExhaustedC => true
  | .resourceExhausted, .GoogleAPICallErrorC => true
  | .googleAPICallError _ _, .GoogleAPICallErrorC => true
  | _, _ => false

/-- The string interpolated for `e.code` in the generic API-error handler
(`e.code if hasattr(e, 'code') else 'N/A'`). -/
def excCodeStr : PyExc → String
  | .permissionDenied => "403"
  | .invalidArgument => "400"
  | .resourceExhausted => "429"
  | .googleAPICallError c _ => c
  | .otherExc _ => "N/A"

/-- The string interpolated for `type(e).__name__`. -/
def excTypeName : PyExc → String
  | .permissionDenied => "PermissionDenied"
  | .invalidArgument => "InvalidArgument"
  | .resourceExhausted => "ResourceExhausted"
  | .googleAPICallError _ t => t
  | .otherExc t => t

/-- The `except` clause chain of `check_key` (source lines 50-65): the
handlers are tried in source order and the first class the exception is an
instance of wins, exactly as in Python exception dispatch. -/
def handleException (api_key model_name : String) (e : PyExc) :
    String × Bool × String :=
  if isInstance e .PermissionDeniedC then
    (api_key, false,
      "Permission Denied (Code: 403): Invalid API Key, permission issue, or API not enabled.")
  else if isInstance e .InvalidArgumentC then
    (api_key, false,
      "Invalid Argument (Code: 400): Check if model name \x27" ++ model_name ++
        "\x27 is correct or Key is malformed.")
  else if isInstance e .ResourceExhaustedC then
    (api_key, false,
      "Resource Exhausted (Code: 429): Quota limit may have been reached.")
  else if isInstance e .GoogleAPICallErrorC then
    (api_key, false,
      "Google API Error (Code: " ++ excCodeStr e ++ "): " ++ excTypeName e)
  else
    (api_key, false, "An unexpected error occurred: " ++ excTypeName e)

/-- Model of `check_key(api_key, model_name)` (source lines 24-65).  The raw
probe result stands for what the `try` body did: `none` means the
`generate_content` call returned a response, `some e` means the body raised
`e`.  Returns the tuple `(api_key, is_valid, reason)`. -/
def check_key (api_key model_name : String) (raw : Option PyExc) :
    String × Bool × String :=
  if api_key = "" ∨ pyStrip api_key = "" then
    (api_key, false, "Key is empty")
  else
    match raw with
    | none => (api_key, true, "Valid")
    | some e => handleException api_key model_name e

/-- Whether `check_key` reaches the `try` body containing the single network
call: it does exactly when the blank-credential guard on line 38 fails. -/
def probeAttempted (api_key : String) : Bool :=
  !(api_key == "" || pyStrip api_key == "")

/-- The taxonomy codes of the specification, one per branch of
`check_key`. -/
inductive Code where
  | EMPTY
  | PERMISSION_DENIED
  | INVALID_ARGUMENT
  | RESOURCE_EXHAUSTED
  | SERVICE_ERROR
  | UNKNOWN_ERROR
  | VALID
deriving DecidableEq, Repr

/-- The taxonomy code selected by `check_key` for a given credential and raw
probe result, following the branch structure of the source exactly: the
blank guard first, then the handler chain in source order with first match
winning. -/
def codeOf (api_key : String) (raw : Option PyExc) : Code :=
  if api_key = "" ∨ pyStrip api_key = "" then .EMPTY
  else
    match raw with
    | none => .VALID
    | some e =>
      if isInstance e .PermissionDeniedC then .PERMISSION_DENIED
      else if isInstance e .InvalidArgumentC then .INVALID_ARGUMENT
      else if isInstance e .ResourceExhaustedC then .RESOURCE_EXHAUSTED
      else if isInstance e .GoogleAPICallErrorC then .SERVICE_ERROR
      else .UNKNOWN_ERROR

/-- Input filtering of `main` (source line 125):
`[key.strip() for key in keys_to_check if key.strip()]`. -/
def filterKeys (lines : List String) : List String :=
  (lines.filter (fun key => !(pyStrip key).isEmpty)).map pyStrip

/-- The task fan-out of `main` (source line 139): one `executor.submit` per
input credential, duplicates included.  Each task is tagged with the index
of the distinct future object returned by its submission. -/
def submitTasks (keys : List String) (model_name : String) :
    List (Nat × String × String) :=
  keys.enum.map (fun p => (p.1, p.2, model_name))

/-- One probe per submitted task: the raw result of task `i` is `probes[i]`.
Models the thread pool running `check_key` once per credential. -/
def runBatch (keys : List String) (model_name : String)
    (probes : List (Option PyExc)) : List (String × Bool × String) :=
  List.zipWith (fun k r => check_key k model_name r) keys probes

/-- The per-failure diagnostic line of `main` (source lines 147-148): the
credential truncated to its first 8 characters, followed by the reason. -/
def invalidReportLine (key reason : String) : String :=
  "  -> Key [" ++ key.take 8 ++ "...] 失败: " ++ reason

/-- The result-collection loop of `main` (source lines 142-148): valid keys
are appended to `valid_keys`, every invalid outcome produces one diagnostic
line, in the order the outcomes are consumed. -/
def processResults (results : List (String × Bool × String)) :
    List String × List String :=
  match results with
  | [] => ([], [])
  | (key, is_valid, reason) :: rest =>
    let p := processResults rest
    if is_valid then (key :: p.1, p.2)
    else (p.1, invalidReportLine key reason :: p.2)

/-- The start-of-run message of `main` (source line 136). -/
def startMessage (total : Nat) (model_name : String) (workers : Nat) : String :=
  "开始检查 " ++ toString total ++ " 个 Key，使用模型 \x27" ++ model_name ++
    "\x27，并发数: " ++ toString workers ++ "..."

/-- The final summary message of `main` (source lines 151-155): a fixed text
when no key was valid, otherwise a text carrying the number of valid keys. -/
def summaryMessage (validCount : Nat) : String :=
  if validCount = 0 then "\n检查完成，未找到可用的 Key。"
  else "\n检查完成，找到 " ++ toString validCount ++ " 个可用的 Key。"

/-- A lowercase hexadecimal digit. -/
def hexDigit (n : Nat) : Char :=
  if n < 10 then Char.ofNat (48 + n) else Char.ofNat (87 + n % 16)

/-- The `\uXXXX` escape used by `json.dumps` under `ensure_ascii=True`. -/
def uEscape (n : Nat) : String :=
  "\\u" ++ String.mk [hexDigit (n / 4096 % 16), hexDigit (n / 256 % 16),
    hexDigit (n / 16 % 16), hexDigit (n % 16)]

/-- One character of the Python `json.dumps` rendering of a string with the
default `ensure_ascii=True`. -/
def jsonEscapeChar (c : Char) : String :=
  if c = '"' then "\\\""
  else if c = '\\' then "\\\\"
  else if c = '\n' then "\\n"
  else if c = '\r' then "\\r"
  else if c = '\t' then "\\t"
  else if c.toNat = 8 then "\\b"
  else if c.toNat = 12 then "\\f"
  else if c.toNat < 32 then uEscape c.toNat
  else if c.toNat < 127 then String.singleton c
  else if c.toNat < 65536 then uEscape c.toNat
  else uEscape (55296 + (c.toNat - 65536) / 1024) ++
    uEscape (56320 + (c.toNat - 65536) % 1024)

/-- A JSON string literal as rendered by `json.dumps`. -/
def jsonQuote (s : String) : String :=
  "\"" ++ String.join (s.data.map jsonEscapeChar) ++ "\""

/-- Model of `json.dumps(xs, indent=2)` for a list of strings (source line
157): the empty list renders as a bare pair of brackets, otherwise each
element sits on its own line indented by two spaces. -/
def jsonDumpsIndent2 (xs : List String) : String :=
  match xs with
  | [] => "[]"
  | _ =>
    "[\n" ++ String.intercalate ",\n" (xs.map (fun s => "  " ++ jsonQuote s)) ++
      "\n]"

/-- The format selection of `main` (source lines 156-159): `json_array`
renders a JSON array, anything else takes the `list` branch and joins the
keys with newlines. -/
def formatOutput (fmt : String) (valid_keys : List String) : String :=
  if fmt = "json_array" then jsonDumpsIndent2 valid_keys
  else String.intercalate "\n" valid_keys

/-- The observable result of one run of `main`: process exit code, the data
written to the output stream, the two partitions, the number of tasks
submitted to the executor, and the diagnostic messages. -/
structure RunResult where
  exitCode : Nat
  outputData : String
  validKeys : List String
  invalidLines : List String
  tasksSubmitted : Nat
  startLine : Option String
  summaryLine : Option String
deriving DecidableEq, Repr

/-- Model of `main` (source lines 112-173) from the point where the raw input
lines are available: filter blank lines, exit successfully at once when
nothing remains (source lines 126-128, before the executor is created, so
zero tasks and zero worker threads), otherwise submit one task per
credential, collect and partition the outcomes, and format the output
data.  Writing the data to a file or to standard output is outside the
model. -/
def mainModel (rawLines : List String) (model_name fmt : String)
    (workers : Nat) (probes : List (Option PyExc)) : RunResult :=
  let keys_to_check := filterKeys rawLines
  if keys_to_check.isEmpty then
    { exitCode := 0, outputData := "", validKeys := [], invalidLines := [],
      tasksSubmitted := 0, startLine := none, summaryLine := none }
  else
    let results := runBatch keys_to_check model_name probes
    let valid_keys := (processResults results).1
    let output_data :=
      if valid_keys.isEmpty then "" else formatOutput fmt valid_keys
    { exitCode := 0, outputData := output_data, validKeys := valid_keys,
      invalidLines := (processResults results).2,
      tasksSubmitted := keys_to_check.length,
      startLine := some (startMessage keys_to_check.length model_name workers),
      summaryLine := some (summaryMessage valid_keys.length) }

/-- Joining two strings with one separator. -/
lemma intercalate_pair (s a b : String) :
    String.intercalate s [a, b] = a ++ s ++ b := by
  simp [String.intercalate, String.intercalate.go]

/-- Every handler of the `except` chain returns the original key as the first
tuple component. -/
lemma handleException_fst (k m : String) (e : PyExc) :
    (handleException k m e).1 = k := by
  cases e <;> simp [handleException, isInstance]

/-- Every handler of the `except` chain reports the key as invalid. -/
lemma handleException_invalid (k m : String) (e : PyExc) :
    (handleException k m e).2.1 = false := by
  cases e <;> simp [handleException, isInstance]

/-- `check_key` always returns its `api_key` argument as the first tuple
component. -/
lemma check_key_fst (k m : String) (raw : Option PyExc) :
    (check_key k m raw).1 = k := by
  by_cases h : k = "" ∨ pyStrip k = ""
  · simp [check_key, h]
  · cases raw with
    | none => simp [check_key, h]
    | some e => simp [check_key, h, handleException_fst]

/-- A raised exception always produces an invalid outcome. -/
lemma check_key_some_invalid (k m : String) (e : PyExc) :
    (check_key k m (some e)).2.1 = false := by
  by_cases h : k = "" ∨ pyStrip k = ""
  · simp [check_key, h]
  · simp [check_key, h, handleException_invalid]

/-- The valid partition collects exactly the keys of the valid outcomes, in
consumption order. -/
lemma processResults_fst (results : List (String × Bool × String)) :
    (processResults results).1 =
      (results.filter (fun r => r.2.1)).map (fun r => r.1) := by
  induction results with
  | nil => simp [processResults]
  | cons r rest ih =>
    obtain ⟨key, is_valid, reason⟩ := r
    cases is_valid <;> simp [processResults, ih]

/-- The diagnostic lines are exactly one `invalidReportLine` per invalid
outcome, in consumption order. -/
lemma processResults_snd (results : List (String × Bool × String)) :
    (processResults results).2 =
      (results.filter (fun r => !r.2.1)).map
        (fun r => invalidReportLine r.1 r.2.2) := by
  induction results with
  | nil => simp [processResults]
  | cons r rest ih =>
    obtain ⟨key, is_valid, reason⟩ := r
    cases is_valid <;> simp [processResults, ih]

/-- Every consumed outcome lands in exactly one of the two partitions. -/
lemma processResults_length (results : List (String × Bool × String)) :
    (processResults results).1.length + (processResults results).2.length =
      results.length := by
  induction results with
  | nil => simp [processResults]
  | cons r rest ih =>
    obtain ⟨key, is_valid, reason⟩ := r
    cases is_valid <;> (simp [processResults]; omega)

/-- The batch produces one outcome per aligned credential and probe result. -/
lemma runBatch_length (keys : List String) (m : String)
    (probes : List (Option PyExc)) :
    (runBatch keys m probes).length = min keys.length probes.length := by
  simp [runBatch, List.length_zipWith]

/-- Every outcome of the batch carries one of the input credentials. -/
lemma runBatch_mem_fst (keys : List String) (m : String)
    (probes : List (Option PyExc)) (o : String × Bool × String)
    (ho : o ∈ runBatch keys m probes) : o.1 ∈ keys := by
  induction keys generalizing probes with
  | nil => simp [runBatch] at ho
  | cons k ks ih =>
    cases probes with
    | nil => simp [runBatch] at ho
    | cons r rs =>
      simp only [runBatch, List.zipWith_cons_cons, List.mem_cons] at ho
      rcases ho with h | h
      · simp [h, check_key_fst]
      · simp [ih rs h]

/-- Claim C1: for every filtered input list of credentials (with one probe
result per credential), after the run completes every credential is in
exactly one of the two partitions: the number of keys appended to the valid
list plus the number of invalid diagnostics equals the number of input
credentials, and each outcome is counted by exactly one of the two
partitions (the valid side counts exactly the valid outcomes, the invalid
side exactly the invalid ones). -/
theorem claim_C1 (lines : List String) (model_name : String)
    (probes : List (Option PyExc))
    (h : probes.length = (filterKeys lines).length) :
    ((processResults (runBatch (filterKeys lines) model_name probes)).1.length +
        (processResults (runBatch (filterKeys lines) model_name probes)).2.length =
      (filterKeys lines).length) ∧
    (∀ results : List (String × Bool × String),
      (processResults results).1.length =
          (results.filter (fun r => r.2.1)).length ∧
        (processResults results).2.length =
          (results.filter (fun r => !r.2.1)).length) := by
  constructor
  · rw [processResults_length, runBatch_length, h, Nat.min_self]
  · intro results
    constructor
    · rw [processResults_fst, List.length_map]
    · rw [processResults_snd, List.length_map]

/-- Witness for claim C1 at a concrete three-line input with one blank
line. -/
theorem claim_C1_witness :
    (processResults (runBatch (filterKeys ["a", "b", " "]) "m"
          [none, some PyExc.permissionDenied])).1.length +
      (processResults (runBatch (filterKeys ["a", "b", " "]) "m"
          [none, some PyExc.permissionDenied])).2.length =
      (filterKeys ["a", "b", " "]).length :=
  (claim_C1 ["a", "b", " "] "m" [none, some PyExc.permissionDenied] (by decide)).1

/-- Claim C2: the classifier checks a fixed taxonomy in precedence order with
first match winning.  A blank credential yields EMPTY for every raw result;
for a non-blank credential, a 403-like failure yields PERMISSION_DENIED, a
400-like failure yields INVALID_ARGUMENT with the configured model name in
the detail, a 429-like failure yields RESOURCE_EXHAUSTED, any other
service-level error yields SERVICE_ERROR with the surfaced status code and
error type in the detail, any non-service exception yields UNKNOWN_ERROR
with the underlying error type name in the detail, and a response received
without error yields VALID.  The three specific API exceptions are also
instances of the generic service-error class, so the earlier clause winning
is precedence, not disjointness; `codeOf` being a function makes the code
for each raw result unique. -/
theorem claim_C2 (k m c t k0 : String) (hk : ¬(k = "" ∨ pyStrip k = ""))
    (h0 : k0 = "" ∨ pyStrip k0 = "") :
    (∀ raw : Option PyExc,
      check_key k0 m raw = (k0, false, "Key is empty") ∧
        codeOf k0 raw = Code.EMPTY) ∧
    (check_key k m (some PyExc.permissionDenied) =
        (k, false,
          "Permission Denied (Code: 403): Invalid API Key, permission issue, or API not enabled.") ∧
      codeOf k (some PyExc.permissionDenied) = Code.PERMISSION_DENIED ∧
      isInstance PyExc.permissionDenied ExcClass.GoogleAPICallErrorC = true) ∧
    (check_key k m (some PyExc.invalidArgument) =
        (k, false,
          "Invalid Argument (Code: 400): Check if model name \x27" ++ m ++
            "\x27 is correct or Key is malformed.") ∧
      codeOf k (some PyExc.invalidArgument) = Code.INVALID_ARGUMENT ∧
      isInstance PyExc.invalidArgument ExcClass.GoogleAPICallErrorC = true) ∧
    (check_key k m (some PyExc.resourceExhausted) =
        (k, false,
          "Resource Exhausted (Code: 429): Quota limit may have been reached.") ∧
      codeOf k (some PyExc.resourceExhausted) = Code.RESOURCE_EXHAUSTED ∧
      isInstance PyExc.resourceExhausted ExcClass.GoogleAPICallErrorC = true) ∧
    (check_key k m (some (PyExc.googleAPICallError c t)) =
        (k, false, "Google API Error (Code: " ++ c ++ "): " ++ t) ∧
      codeOf k (some (PyExc.googleAPICallError c t)) = Code.SERVICE_ERROR) ∧
    (check_key k m (some (PyExc.otherExc t)) =
        (k, false, "An unexpected error occurred: " ++ t) ∧
      codeOf k (some (PyExc.otherExc t)) = Code.UNKNOWN_ERROR) ∧
    (check_key k m none = (k, true, "Valid") ∧ codeOf k none = Code.VALID) := by
  refine ⟨?_, ?_, ?_, ?_, ?_, ?_, ?_⟩ <;>
    simp [check_key, codeOf, handleException, isInstance, hk, h0,
      excCodeStr, excTypeName]

/-- Witness for claim C2 at a concrete non-blank key with a 403-like failure
and at the empty key. -/
theorem claim_C2_witness :
    check_key "AIza" "gemini-2.0-flash-lite" (some PyExc.permissionDenied) =
        ("AIza", false,
          "Permission Denied (Code: 403): Invalid API Key, permission issue, or API not enabled.") ∧
      check_key "" "gemini-2.0-flash-lite" none = ("", false, "Key is empty") :=
  ⟨(claim_C2 "AIza" "gemini-2.0-flash-lite" "503" "ServiceUnavailable" ""
      (by decide) (Or.inl rfl)).2.1.1,
    ((claim_C2 "AIza" "gemini-2.0-flash-lite" "503" "ServiceUnavailable" ""
      (by decide) (Or.inl rfl)).1 none).1⟩

/-- Claim C3: for every credential, model name and probe failure mode
(including arbitrary exception shapes), the per-credential operation returns
a tagged data value carrying the credential with `is_valid = false` rather
than propagating; the batch always produces its full list of outcomes; and
changing the probe result of one credential (for example to a failure) never
changes the outcome of any other credential. -/
theorem claim_C3 (k m : String) (e : PyExc) (keys : List String)
    (probes : List (Option PyExc)) (i j : Nat) (e' : Option PyExc)
    (hij : i ≠ j) :
    ((check_key k m (some e)).1 = k ∧ (check_key k m (some e)).2.1 = false) ∧
    (runBatch keys m probes).length = min keys.length probes.length ∧
    (runBatch keys m (probes.set j e'))[i]? = (runBatch keys m probes)[i]? := by
  refine ⟨⟨check_key_fst k m (some e), check_key_some_invalid k m e⟩,
    runBatch_length keys m probes, ?_⟩
  simp only [runBatch, List.getElem?_zipWith,
    List.getElem?_set_ne (Ne.symm hij)]

/-- Witness for claim C3: making the second probe fail with a transport
exception leaves the first outcome unchanged. -/
theorem claim_C3_witness :
    (runBatch ["a", "b"] "m"
        ([none, none].set 1 (some (PyExc.otherExc "ConnectionError"))))[0]? =
      (runBatch ["a", "b"] "m" [none, none])[0]? :=
  (claim_C3 "k" "m" PyExc.permissionDenied ["a", "b"] [none, none] 0 1
      (some (PyExc.otherExc "ConnectionError")) (by decide)).2.2

/-- Claim C4: for every credential string that is empty or whitespace-only,
`check_key` immediately returns the invalid EMPTY outcome for every raw
result, and the `try` body containing the single network call is never
entered. -/
theorem claim_C4 (k m : String) (raw : Option PyExc)
    (h : k = "" ∨ pyStrip k = "") :
    check_key k m raw = (k, false, "Key is empty") ∧
      probeAttempted k = false := by
  constructor
  · simp [check_key, h]
  · rcases h with h | h <;> simp [probeAttempted, h]

/-- Witness for claim C4 at a whitespace-only credential. -/
theorem claim_C4_witness :
    check_key "   " "gemini-2.0-flash-lite" (some PyExc.permissionDenied) =
        ("   ", false, "Key is empty") ∧
      probeAttempted "   " = false :=
  claim_C4 "   " "gemini-2.0-flash-lite" (some PyExc.permissionDenied)
    (Or.inr (by decide))

/-- Claim C5: exactly one task is submitted per input credential, in input
order; duplicate credential strings each get their own task under a distinct
future, so the task count equals the input length and every credential
occurs among the tasks exactly as often as in the input. -/
theorem claim_C5 (keys : List String) (model_name : String) :
    (submitTasks keys model_name).length = keys.length ∧
    (submitTasks keys model_name).map (fun task => task.2.1) = keys ∧
    ((submitTasks keys model_name).map (fun task => task.1)).Nodup ∧
    ∀ k : String,
      ((submitTasks keys model_name).map (fun task => task.2.1)).count k =
        keys.count k := by
  have hsnd : (submitTasks keys model_name).map (fun task => task.2.1) = keys := by
    rw [submitTasks, List.map_map]
    exact List.enum_map_snd keys
  have hfst : (submitTasks keys model_name).map (fun task => task.1) =
      List.range keys.length := by
    rw [submitTasks, List.map_map]
    exact List.enum_map_fst keys
  refine ⟨?_, hsnd, ?_, fun k => by rw [hsnd]⟩
  · simp [submitTasks, List.enum_length]
  · rw [hfst]
    exact List.nodup_range keys.length

/-- Claim C7: if the credential list is empty after filtering blank lines,
the run completes immediately with success exit status, empty data output,
empty valid and invalid sets, and zero tasks submitted (the executor is
never created, so no worker is spawned). -/
theorem claim_C7 (lines : List String) (model_name fmt : String)
    (workers : Nat) (probes : List (Option PyExc))
    (h : filterKeys lines = []) :
    (mainModel lines model_name fmt workers probes).exitCode = 0 ∧
    (mainModel lines model_name fmt workers probes).outputData = "" ∧
    (mainModel lines model_name fmt workers probes).validKeys = [] ∧
    (mainModel lines model_name fmt workers probes).invalidLines = [] ∧
    (mainModel lines model_name fmt workers probes).tasksSubmitted = 0 := by
  simp [mainModel, h]

/-- Witness for claim C7 at an input of one empty and one whitespace-only
line. -/
theorem claim_C7_witness :
    (mainModel ["", "   "] "gemini-2.0-flash-lite" "list" 20 []).exitCode = 0 ∧
    (mainModel ["", "   "] "gemini-2.0-flash-lite" "list" 20 []).outputData = "" ∧
    (mainModel ["", "   "] "gemini-2.0-flash-lite" "list" 20 []).validKeys = [] ∧
    (mainModel ["", "   "] "gemini-2.0-flash-lite" "list" 20 []).invalidLines = [] ∧
    (mainModel ["", "   "] "gemini-2.0-flash-lite" "list" 20 []).tasksSubmitted = 0 :=
  claim_C7 ["", "   "] "gemini-2.0-flash-lite" "list" 20 [] (by decide)

/-- Claim C8: for every non-empty valid-credential set the formatter renders
the selected format: the `list` format joins the credentials with newlines
(for ["a", "b"] the string "a\nb"), and the `json_array` format renders a
JSON array of the credential strings; both take the aggregator list as
given, so its internal order is preserved, and `main` hands exactly the
formatted string to the output stream whenever the valid set is
non-empty. -/
theorem claim_C8 (valid_keys : List String) (_h : valid_keys ≠ []) :
    formatOutput "list" valid_keys = String.intercalate "\n" valid_keys ∧
    formatOutput "json_array" valid_keys = jsonDumpsIndent2 valid_keys ∧
    formatOutput "list" ["a", "b"] = "a\nb" ∧
    formatOutput "json_array" ["a", "b"] = "[\n  \"a\",\n  \"b\"\n]" ∧
    (∀ a b : String, formatOutput "list" [a, b] = a ++ "\n" ++ b) ∧
    ∀ (lines : List String) (model_name fmt : String) (workers : Nat)
      (probes : List (Option PyExc)),
      (mainModel lines model_name fmt workers probes).validKeys ≠ [] →
      (mainModel lines model_name fmt workers probes).outputData =
        formatOutput fmt (mainModel lines model_name fmt workers probes).validKeys := by
  refine ⟨by rw [formatOutput, if_neg (by decide)], rfl, by decide, by decide,
    ?_, ?_⟩
  · intro a b
    rw [formatOutput, if_neg (by decide), intercalate_pair]
  · intro lines model_name fmt workers probes hv
    by_cases he : (filterKeys lines).isEmpty
    · exact absurd (by simp [mainModel, he]) hv
    · have hv' : ¬(processResults
          (runBatch (filterKeys lines) model_name probes)).1.isEmpty := by
        simp only [mainModel, he, Bool.false_eq_true, if_false] at hv
        simpa [List.isEmpty_iff] using hv
      simp [mainModel, he, hv']

/-- Witness for claim C8 at the valid set ["a", "b"]. -/
theorem claim_C8_witness :
    formatOutput "list" ["a", "b"] = String.intercalate "\n" ["a", "b"] ∧
      formatOutput "json_array" ["a", "b"] = "[\n  \"a\",\n  \"b\"\n]" :=
  ⟨(claim_C8 ["a", "b"] (by decide)).1, (claim_C8 ["a", "b"] (by decide)).2.2.2.1⟩

/-- Counterexample to claim C9 as stated: in a run that checks two
credentials of which one is valid, the final summary message is exactly the
fixed valid-count text; it contains no occurrence of the character 2, so it
does not report the total number checked, only the number of valid keys. -/
theorem claim_C9_counterexample :
    (filterKeys ["a", "b"]).length = 2 ∧
    (mainModel ["a", "b"] "m" "list" 20
        [none, some PyExc.permissionDenied]).validKeys = ["a"] ∧
    (mainModel ["a", "b"] "m" "list" 20
        [none, some PyExc.permissionDenied]).summaryLine =
      some "\n检查完成，找到 1 个可用的 Key。" ∧
    ("\n检查完成，找到 1 个可用的 Key。".data.contains '2') = false := by
  refine ⟨by decide, by decide, by decide, by decide⟩

/-- Claim C9 as amended: for every run whose filtered input is non-empty,
each invalid outcome is reported individually as one diagnostic line built
from the credential truncated to its first 8 characters and the classified
reason, without stopping the run (the two partitions still cover every
outcome), and a final summary message is always produced; the summary
reports the number of valid credentials when that number is positive and a
fixed none-found text otherwise, while the total number checked appears in
the start-of-run message rather than in the final summary. -/
theorem claim_C9 (lines : List String) (model_name fmt : String)
    (workers : Nat) (probes : List (Option PyExc))
    (h : filterKeys lines ≠ []) :
    (mainModel lines model_name fmt workers probes).summaryLine =
      some (summaryMessage
        (mainModel lines model_name fmt workers probes).validKeys.length) ∧
    (mainModel lines model_name fmt workers probes).startLine =
      some (startMessage (filterKeys lines).length model_name workers) ∧
    (mainModel lines model_name fmt workers probes).invalidLines =
      ((runBatch (filterKeys lines) model_name probes).filter
          (fun r => !r.2.1)).map (fun r => invalidReportLine r.1 r.2.2) ∧
    ((mainModel lines model_name fmt workers probes).validKeys.length +
        (mainModel lines model_name fmt workers probes).invalidLines.length =
      (runBatch (filterKeys lines) model_name probes).length) ∧
    summaryMessage 0 = "\n检查完成，未找到可用的 Key。" := by
  have he : ¬(filterKeys lines).isEmpty := by
    simpa [List.isEmpty_iff] using h
  refine ⟨by simp [mainModel, he], by simp [mainModel, he], ?_, ?_, by decide⟩
  · simp [mainModel, he, processResults_snd]
  · simp only [mainModel, he, Bool.false_eq_true, if_false]
    exact processResults_length _

/-- Witness for the amended claim C9 at a one-credential run. -/
theorem claim_C9_witness :
    (mainModel ["a"] "m" "list" 20 [none]).summaryLine =
      some (summaryMessage (mainModel ["a"] "m" "list" 20 [none]).validKeys.length) :=
  (claim_C9 ["a"] "m" "list" 20 [none] (by decide)).1

/-- Claim C10: for every api_key and model_name argument and every outcome
branch, the first component of the tuple returned by `check_key` is the
original api_key argument unchanged; consequently every credential in the
valid output is literally one of the input credential strings. -/
theorem claim_C10 (k m : String) (raw : Option PyExc) (keys : List String)
    (probes : List (Option PyExc)) (x : String) :
    (check_key k m raw).1 = k ∧
    (x ∈ (processResults (runBatch keys m probes)).1 → x ∈ keys) := by
  refine ⟨check_key_fst k m raw, fun hx => ?_⟩
  rw [processResults_fst] at hx
  simp only [List.mem_map, List.mem_filter] at hx
  obtain ⟨o, ⟨ho, _⟩, rfl⟩ := hx
  exact runBatch_mem_fst keys m probes o ho

/-- Witness for claim C10 at a concrete two-credential batch. -/
theorem claim_C10_witness :
    (check_key "abc" "m" none).1 = "abc" ∧ "a" ∈ (["a", "b"] : List String) :=
  ⟨(claim_C10 "abc" "m" none ["a", "b"] [none, none] "a").1,
    (claim_C10 "abc" "m" none ["a", "b"] [none, none] "a").2 (by decide)⟩
